import Mathlib

/-!
Shallow embedding of the EV battery charging simulator core:
the cell model of `src/models/Cell.ts`, the battery pack implementation of
`src/unnamed/part_003`, and the simulation driver of `src/unnamed/part_004`
together with `src/models/ChargingSimulation.ts`.  JavaScript numbers are
modelled as rationals, `Number.MAX_VALUE` as the exact value of the largest
finite double, each `Math.random()` draw as an explicit parameter, and
`Math.exp` as an abstract function parameter.
-/

/-- The exact rational value of the JavaScript constant Number.MAX_VALUE,
the largest finite double. -/
def MAX_VALUE : ℚ := (2 ^ 53 - 1) * 2 ^ 971

/-- State of one battery cell, mirroring the fields of `Cell` in
`src/models/Cell.ts`. -/
structure Cell where
  temperature : ℚ
  ambientTemperature : ℚ
  stateOfCharge : ℚ
  capacity : ℚ
  internalResistance : ℚ
  maxVoltage : ℚ
  minVoltage : ℚ
  nominalVoltage : ℚ
  randomFactor : ℚ
  chargingEfficiency : ℚ
  charge : ℚ
  heatingEnabled : Bool
  wasBalanced : Bool
deriving DecidableEq

/-- The `Cell` constructor (`src/models/Cell.ts` lines 16-29).  The three
`Math.random()` draws (initial-SoC jitter, resistance jitter, the stored
`_randomFactor`) are passed in explicitly as `randSoc`, `randRes`,
`randFactor`. -/
def Cell.make (initialSoc initialTemperature randSoc randRes randFactor : ℚ) : Cell :=
  { temperature := initialTemperature
    ambientTemperature := initialTemperature
    stateOfCharge := initialSoc * (95/100 + randSoc * (1/10))
    capacity := 10
    internalResistance := (1/100) * (8/10 + randRes * (4/10))
    maxVoltage := 42/10
    minVoltage := 34/10
    nominalVoltage := 37/10
    randomFactor := randFactor
    chargingEfficiency := 1
    charge := initialSoc * (95/100 + randSoc * (1/10)) * 10
    heatingEnabled := false
    wasBalanced := false }

/-- The derived `voltage` getter: linear interpolation in the state of
charge (`src/models/Cell.ts` lines 47-49). -/
def Cell.voltage (c : Cell) : ℚ :=
  c.minVoltage + (c.maxVoltage - c.minVoltage) * c.stateOfCharge

/-- The `energy` getter: capacity times nominal voltage
(`src/models/Cell.ts` lines 75-77). -/
def Cell.energy (c : Cell) : ℚ :=
  c.capacity * c.nominalVoltage

/-- The clamping `stateOfCharge` setter (`src/models/Cell.ts` lines 43-45). -/
def Cell.setStateOfCharge (c : Cell) (value : ℚ) : Cell :=
  { c with stateOfCharge := max 0 (min 1 value) }

/-- `Cell.updateCharge` (`src/models/Cell.ts` lines 79-104): add
`current × efficiency × deltaTimeHours` ampere-hours, clip at capacity. -/
def Cell.updateCharge (c : Cell) (current deltaTimeHours : ℚ) : Cell :=
  let effectiveCurrent := current
  let chargingEfficiency := c.chargingEfficiency * (95/100 + c.randomFactor * (10/100))
  let chargeAdded := effectiveCurrent * chargingEfficiency
  let newCharge := c.charge + chargeAdded * deltaTimeHours
  let charge1 := min newCharge c.capacity
  let soc1 := charge1 / c.capacity
  if soc1 > 1 then { c with charge := c.capacity, stateOfCharge := 1 }
  else { c with charge := charge1, stateOfCharge := soc1 }

/-- `Cell.reset` (`src/models/Cell.ts` lines 158-162): restore temperature,
hard-code the state of charge to 0.1, clear the heating flag.  Note the
internal `_charge` field is not touched by the source. -/
def Cell.reset (c : Cell) (initialTemperature : ℚ) : Cell :=
  { c with temperature := initialTemperature
           stateOfCharge := 1/10
           heatingEnabled := false }

/-- State of the battery pack, mirroring the fields of `BatteryPack` in
`src/unnamed/part_003`. -/
structure BatteryPack where
  cells : List Cell
  systemVoltage : ℚ
  maxCRate : ℚ
  coolingPower : ℚ
  maxCarPower : Option ℚ
  limitingFactor : Option String
  initialTemperature : ℚ
  batteryHeatingEnabled : Bool
  cellsInSeries : ℕ
  cellsInParallel : ℤ
  balancingIntensity : ℚ
  avgSoc : ℚ
  cellsBalanced : ℕ

/-- `BatteryPack.enableHeating` (`src/unnamed/part_003` lines 117-122). -/
def BatteryPack.enableHeating (p : BatteryPack) : BatteryPack :=
  { p with batteryHeatingEnabled := true
           cells := p.cells.map fun c => { c with heatingEnabled := true } }

/-- `BatteryPack.disableHeating` (`src/unnamed/part_003` lines 124-129). -/
def BatteryPack.disableHeating (p : BatteryPack) : BatteryPack :=
  { p with batteryHeatingEnabled := false
           cells := p.cells.map fun c => { c with heatingEnabled := false } }

/-- The `BatteryPack` constructor (`src/unnamed/part_003` lines 37-95).
`rand` supplies the three `Math.random()` draws of the `Cell` constructor
for the i-th created cell.  `Math.floor` is `Int.floor`; the JS `for` loop
creating `totalCells` cells runs zero times when that count is not
positive, which `Int.toNat` captures. -/
def BatteryPack.create (batteryCapacityKWh systemVoltage maxCRate coolingPower : ℚ)
    (maxCarPower : Option ℚ) (initialTemperature : ℚ) (batteryHeatingEnabled : Bool)
    (rand : ℕ → ℚ × ℚ × ℚ) : BatteryPack :=
  let cellsInSeries400 : ℕ := 108
  let cellsInSeries800 : ℕ := 216
  let cellsInSeries : ℕ := if systemVoltage = 400 then cellsInSeries400 else cellsInSeries800
  let sampleCell := Cell.make 0 25 0 0 0
  let cellEnergy := sampleCell.energy
  let totalWh := batteryCapacityKWh * 1000
  let totalCellsNeeded := totalWh / cellEnergy
  let cellsInParallel800start : ℤ := ⌊totalCellsNeeded / 216⌋
  let cellsInParallel800 : ℤ :=
    if cellsInParallel800start % 2 ≠ 0 then cellsInParallel800start + 1
    else cellsInParallel800start
  let cellsInParallel : ℤ :=
    if systemVoltage = 400 then cellsInParallel800 * 2 else cellsInParallel800
  let totalCells : ℕ := ((cellsInSeries : ℤ) * cellsInParallel).toNat
  let cells : List Cell := (List.range totalCells).map fun i =>
    { Cell.make 0 initialTemperature (rand i).1 (rand i).2.1 (rand i).2.2 with
        heatingEnabled := false }
  let pack : BatteryPack :=
    { cells := cells
      systemVoltage := systemVoltage
      maxCRate := maxCRate
      coolingPower := coolingPower
      maxCarPower := maxCarPower
      limitingFactor := none
      initialTemperature := initialTemperature
      batteryHeatingEnabled := false
      cellsInSeries := cellsInSeries
      cellsInParallel := cellsInParallel
      balancingIntensity := 0
      avgSoc := 0
      cellsBalanced := 0 }
  if batteryHeatingEnabled then pack.enableHeating else pack

/-- `totalVoltage` getter (`src/unnamed/part_003` lines 131-150): per series
position, average the voltages of the parallel group, then sum.  The JS
out-of-bounds guard `cellIndex < this._cells.length` is kept; the default
cell of `getD` is never read when the guard holds.  Rational division is
total, so for `cellsInParallel = 0` this yields 0 where JavaScript yields
NaN; `BatteryPack.totalVoltageJS` below models the JavaScript
semantics. -/
def BatteryPack.totalVoltage (p : BatteryPack) : ℚ :=
  (List.range p.cellsInSeries).foldl
    (fun totalV s =>
      let groupV := (List.range p.cellsInParallel.toNat).foldl
        (fun g q =>
          let cellIndex := s + q * p.cellsInSeries
          if cellIndex < p.cells.length then
            g + (p.cells.getD cellIndex (Cell.make 0 25 0 0 0)).voltage
          else g)
        0
      totalV + groupV / (p.cellsInParallel : ℚ))
    0

/-- `totalCapacity` getter (`src/unnamed/part_003` lines 152-155). -/
def BatteryPack.totalCapacity (p : BatteryPack) : ℚ :=
  (match p.cells with
   | [] => 0
   | c :: _ => c.capacity) * p.cells.length

/-- `averageTemperature` getter (`src/unnamed/part_003` lines 162-164). -/
def BatteryPack.averageTemperature (p : BatteryPack) : ℚ :=
  p.cells.foldl (fun s c => s + c.temperature) 0 / (p.cells.length : ℚ)

/-- `maxTemperature` getter (`src/unnamed/part_003` lines 166-168):
`Math.max(...)` over all cell temperatures; the JS result for an empty pack
is -Infinity, modelled by the starting value `-MAX_VALUE`. -/
def BatteryPack.maxTemperature (p : BatteryPack) : ℚ :=
  (p.cells.map Cell.temperature).foldl max (-MAX_VALUE)

/-- `averageSoc` getter (`src/unnamed/part_003` lines 170-172): returns the
stored `_avgSoc` field. -/
def BatteryPack.averageSoc (p : BatteryPack) : ℚ :=
  p.avgSoc

/-- `calculateAvgSoc` (`src/unnamed/part_003` lines 183-197): one pass over
the cells accumulating `Σ soc·capacity·voltage` and `Σ capacity·voltage`,
then store and return the quotient as a percentage. -/
def BatteryPack.calculateAvgSoc (p : BatteryPack) : ℚ × BatteryPack :=
  let acc := p.cells.foldl
    (fun (a : ℚ × ℚ) c =>
      (a.1 + c.stateOfCharge * c.capacity * c.voltage, a.2 + c.capacity * c.voltage))
    (0, 0)
  let avgSoc := acc.1 / acc.2
  (avgSoc * 100, { p with avgSoc := avgSoc * 100 })

/-- `energyCapacityKWh` getter (`src/unnamed/part_003` lines 420-427). -/
def BatteryPack.energyCapacityKWh (p : BatteryPack) : ℚ :=
  let cellEnergy := match p.cells with
    | [] => 0
    | c :: _ => c.energy
  cellEnergy * p.cells.length / 1000

/-- The C-rate limit of `calculateChargingCurrent`
(`src/unnamed/part_003` line 210): power-based, converted to current at the
present pack voltage.  Rational division is total, so a zero (or, in
JavaScript, NaN) `totalVoltage` yields 0 here where JavaScript yields
NaN or an infinity; `cRateLimitJSF` below models the JavaScript
semantics. -/
def cRateLimitF (maxCRate energyCapacityKWh totalVoltage : ℚ) : ℚ :=
  maxCRate * energyCapacityKWh * 1000 / totalVoltage

/-- The car-power limit (`src/unnamed/part_003` lines 213-216).  The JS
`if (this._maxCarPower)` truthiness test skips both `null` and `0`. -/
def powerLimitF (maxCarPower : Option ℚ) (totalVoltage : ℚ) : ℚ :=
  match maxCarPower with
  | none => MAX_VALUE
  | some mcp => if mcp = 0 then MAX_VALUE else mcp * 1000 / totalVoltage

/-- The cold-temperature limit (`src/unnamed/part_003` lines 222-230):
below 20°C average temperature, a quadratic ramp with floor 0.02. -/
def coldTemperatureLimitF (maxChargerCurrent averageTemperature : ℚ) : ℚ :=
  if averageTemperature < 20 then
    maxChargerCurrent * max (2/100) (((max 0 averageTemperature + 5) / 20) ^ 2)
  else MAX_VALUE

/-- The hot-temperature limit (`src/unnamed/part_003` lines 237-246):
above 40°C max temperature, a linear taper to zero over 25°C. -/
def temperatureLimitF (maxChargerCurrent maxTemperature : ℚ) : ℚ :=
  if 40 < maxTemperature then
    maxChargerCurrent * max 0 (1 - (maxTemperature - 40) / 25)
  else MAX_VALUE

/-- The SoC taper limit (`src/unnamed/part_003` lines 252-261): above 70%
average SoC an exponential taper; `e` stands for `Math.exp`.  `avgSoc` is on
the 0-1 scale here. -/
def socLimitF (e : ℚ → ℚ) (maxChargerCurrent avgSoc : ℚ) : ℚ :=
  if avgSoc > 7/10 then
    maxChargerCurrent * min 1 (e (-8 * (avgSoc - 7/10)))
  else MAX_VALUE

/-- The balancing limit (`src/unnamed/part_003` lines 264-268). -/
def balancingLimitF (maxChargerCurrent balancingIntensity : ℚ) : ℚ :=
  if 0 < balancingIntensity then
    maxChargerCurrent * (1 - balancingIntensity * 50)
  else MAX_VALUE

/-- `Math.min` over the seven candidates in the order of
`src/unnamed/part_003` lines 271-279. -/
def limitedCurrentF (maxChargerCurrent cRateLimit powerLimit temperatureLimit
    coldTemperatureLimit balancingLimit socLimit : ℚ) : ℚ :=
  min maxChargerCurrent (min cRateLimit (min powerLimit (min temperatureLimit
    (min coldTemperatureLimit (min balancingLimit socLimit)))))

/-- `determineLimitingFactor` (`src/unnamed/part_003` lines 296-317):
first candidate within the 0.1 tolerance of the returned minimum wins. -/
def determineLimitingFactor (limitedCurrent chargerMax cRateLimit powerLimit
    tempLimit coldTempLimit balancingLimit socLimit : ℚ) : String :=
  if |limitedCurrent - chargerMax| < 1/10 then "Charger"
  else if |limitedCurrent - cRateLimit| < 1/10 then "C-rate"
  else if |limitedCurrent - powerLimit| < 1/10 then "Car"
  else if |limitedCurrent - tempLimit| < 1/10 then "Temperature (hot)"
  else if |limitedCurrent - coldTempLimit| < 1/10 then "Temperature (cold)"
  else if |limitedCurrent - balancingLimit| < 1/10 then "Cell balancing"
  else if |limitedCurrent - socLimit| < 1/10 then "SoC"
  else "Unknown limit"

/-- The C-rate limit as computed from the pack state
(`src/unnamed/part_003` line 210). -/
def BatteryPack.cRateLimit (p : BatteryPack) : ℚ :=
  cRateLimitF p.maxCRate p.energyCapacityKWh p.totalVoltage

/-- `calculateChargingCurrent` (`src/unnamed/part_003` lines 205-294).
Returns the limited current and the resulting pack state: in the
`averageTemperature ≥ 20` branch the source calls `disableHeating()` when
battery heating is enabled (a side effect on the pack), and the chosen
limiting-factor label is stored on the pack.  `e` stands for `Math.exp`. -/
def BatteryPack.calculateChargingCurrent (e : ℚ → ℚ) (p : BatteryPack)
    (maxChargerCurrent : ℚ) : ℚ × BatteryPack :=
  let cRateLimit := p.cRateLimit
  let powerLimit := powerLimitF p.maxCarPower p.totalVoltage
  let coldTemperatureLimit := coldTemperatureLimitF maxChargerCurrent p.averageTemperature
  let p1 := if p.averageTemperature < 20 then p
    else if p.batteryHeatingEnabled then p.disableHeating else p
  let temperatureLimit := temperatureLimitF maxChargerCurrent p1.maxTemperature
  let socLimit := socLimitF e maxChargerCurrent (p1.averageSoc / 100)
  let balancingLimit := balancingLimitF maxChargerCurrent p1.balancingIntensity
  let limitedCurrent := limitedCurrentF maxChargerCurrent cRateLimit powerLimit
    temperatureLimit coldTemperatureLimit balancingLimit socLimit
  let label := determineLimitingFactor limitedCurrent maxChargerCurrent cRateLimit
    powerLimit temperatureLimit coldTemperatureLimit balancingLimit socLimit
  (limitedCurrent, { p1 with limitingFactor := some label })

/-- The limit computation as a pure function of the aggregate inputs the
source reads; used to state "holding every other input fixed". -/
def chargingCurrentValue (e : ℚ → ℚ) (maxChargerCurrent maxCRate energyCapacityKWh
    totalVoltage : ℚ) (maxCarPower : Option ℚ)
    (averageTemperature maxTemperature avgSoc100 balancingIntensity : ℚ) : ℚ :=
  limitedCurrentF maxChargerCurrent
    (cRateLimitF maxCRate energyCapacityKWh totalVoltage)
    (powerLimitF maxCarPower totalVoltage)
    (temperatureLimitF maxChargerCurrent maxTemperature)
    (coldTemperatureLimitF maxChargerCurrent averageTemperature)
    (balancingLimitF maxChargerCurrent balancingIntensity)
    (socLimitF e maxChargerCurrent (avgSoc100 / 100))

/-- `BatteryPack.reset` (`src/unnamed/part_003` lines 385-402). -/
def BatteryPack.reset (p : BatteryPack) : BatteryPack :=
  let p1 : BatteryPack :=
    { p with cells := p.cells.map fun c => c.reset p.initialTemperature
             limitingFactor := none
             balancingIntensity := 0
             avgSoc := 0
             cellsBalanced := 0 }
  if p1.batteryHeatingEnabled then p1.enableHeating else p1.disableHeating

/-- One recorded sample (`SimulationDataPoint` in `src/unnamed/part_004`
lines 4-12; `heatingEnabled` is an optional field). -/
structure SimulationDataPoint where
  time : ℚ
  soc : ℚ
  power : ℚ
  current : ℚ
  voltage : ℚ
  temperature : ℚ
  heatingEnabled : Option Bool
deriving DecidableEq

/-- The JS `filter((_, index) => index % 2 === 0)` used to down-sample the
recorded history (`src/models/ChargingSimulation.ts` line 153,
`src/unnamed/part_004` line 193). -/
def filterEvenIdx (l : List SimulationDataPoint) : List SimulationDataPoint :=
  (l.enum.filter fun pr => pr.1 % 2 = 0).map Prod.snd

/-- The history cap applied after a push: when the collection holds more
than 1000 entries, keep only the even-indexed ones
(`src/models/ChargingSimulation.ts` lines 152-154, `src/unnamed/part_004`
lines 191-194). -/
def capDataPoints (dps : List SimulationDataPoint) : List SimulationDataPoint :=
  if 1000 < dps.length then filterEvenIdx dps else dps

/-- Charger types of `src/unnamed/part_004` line 3. -/
inductive ChargerType where
  | supercharger
  | standardCCS
deriving DecidableEq

/-- Simulation driver state (`ChargingSimulation` of `src/unnamed/part_004`). -/
structure ChargingSimulation where
  batteryPack : BatteryPack
  dataPoints : List SimulationDataPoint
  isRunning : Bool
  elapsedTime : ℚ
  timeStep : ℚ
  timeAcceleration : ℚ
  chargerType : ChargerType
  chargerMaxCurrent : ℚ
  fullPointSoC : ℚ

/-- `addDataPoint` (`src/unnamed/part_004` lines 174-195): push a sample for
the given current, then apply the history cap. -/
def ChargingSimulation.addDataPoint (sim : ChargingSimulation) (current : ℚ) :
    ChargingSimulation :=
  let voltage := sim.batteryPack.totalVoltage
  let power := voltage * current / 1000
  let pt : SimulationDataPoint :=
    { time := sim.elapsedTime
      soc := sim.batteryPack.averageSoc
      power := power
      current := current
      voltage := voltage
      temperature := sim.batteryPack.averageTemperature
      heatingEnabled := some sim.batteryPack.batteryHeatingEnabled }
  { sim with dataPoints := capDataPoints (sim.dataPoints ++ [pt]) }

/-- The `ChargingSimulation` constructor (`src/unnamed/part_004`
lines 26-33). -/
def ChargingSimulation.create (batteryPack : BatteryPack)
    (chargerType : ChargerType) : ChargingSimulation :=
  let sim : ChargingSimulation :=
    { batteryPack := batteryPack
      dataPoints := []
      isRunning := false
      elapsedTime := 0
      timeStep := 1
      timeAcceleration := 1
      chargerType := chargerType
      chargerMaxCurrent := if chargerType = ChargerType.supercharger then 625 else 500
      fullPointSoC := 0 }
  sim.addDataPoint 0

/-- `ChargingSimulation.reset` (`src/unnamed/part_004` lines 89-109):
reset the pack, clear the history, reset elapsed time, and push one initial
sample read off the freshly reset pack. -/
def ChargingSimulation.reset (sim : ChargingSimulation) : ChargingSimulation :=
  let p := sim.batteryPack.reset
  let pt : SimulationDataPoint :=
    { time := 0
      soc := p.averageSoc
      power := 0
      current := 0
      voltage := p.totalVoltage
      temperature := p.averageTemperature
      heatingEnabled := some p.batteryHeatingEnabled }
  { sim with batteryPack := p
             dataPoints := [pt]
             elapsedTime := 0 }

/-- Spec-side formula (spec section 3): the energy-weighted average SoC,
`Σ(cell.SoC × cell.capacity × cell.voltage) / Σ(cell.capacity × cell.voltage)`,
expressed as a percentage. -/
def energyWeightedSoCPercent (p : BatteryPack) : ℚ :=
  ((p.cells.map fun c => c.stateOfCharge * c.capacity * c.voltage).sum /
    (p.cells.map fun c => c.capacity * c.voltage).sum) * 100

/-- Spec-side formula: the naive arithmetic mean of the cells' SoC values,
as a percentage (what the spec says `averageStateOfCharge` must NOT be). -/
def naiveMeanSoCPercent (p : BatteryPack) : ℚ :=
  ((p.cells.map Cell.stateOfCharge).sum / (p.cells.length : ℚ)) * 100

/-- Spec-side quantity (spec section 3): `totalCapacityAh` as "single cell
capacity × cell count". -/
def specTotalCapacityAh (p : BatteryPack) : ℚ :=
  (match p.cells with
   | [] => 0
   | c :: _ => c.capacity) * p.cells.length

/-- The nominal voltage of the pack's reference (first) cell. -/
def specNominalCellVoltage (p : BatteryPack) : ℚ :=
  match p.cells with
  | [] => 0
  | c :: _ => c.nominalVoltage

/-- Spec-side formula (spec section 4.2, claim C6): the capacity-based
C-rate ceiling `maxCRate × totalCapacityAh`. -/
def specCapacityBasedCRateCeiling (p : BatteryPack) : ℚ :=
  p.maxCRate * specTotalCapacityAh p

/-- Spec-side description of the down-sampling step: discard every other
entry, keeping the first (index 0) entry and every second entry after it,
in order. -/
def everyOther : List α → List α
  | [] => []
  | [a] => [a]
  | a :: _ :: rest => a :: everyOther rest

/-- A constant stream for the `Math.random()` draws, giving identical
cells. -/
def randHalf : ℕ → ℚ × ℚ × ℚ := fun _ => (1/2, 1/2, 1/2)

/-- The cell produced by the pack constructor for initial SoC 0,
temperature 25°C, and all random draws equal to 1/2. -/
def cellHalf : Cell :=
  { Cell.make 0 25 (1/2) (1/2) (1/2) with heatingEnabled := false }

/-- `cellHalf` with the heater on, as produced by `enableHeating`. -/
def cellHalfHeated : Cell :=
  { cellHalf with heatingEnabled := true }

/-- `cellHalf` after `Cell.reset 25`. -/
def cellHalfReset : Cell :=
  { cellHalf with temperature := 25, stateOfCharge := 1/10, heatingEnabled := false }

/-- A concrete 15.984 kWh, 800 V pack (216 cells in series, 2 in parallel,
432 cells) built by the constructor with heating off. -/
def packSmall : BatteryPack :=
  BatteryPack.create (1998/125) 800 2 1 none 25 false randHalf

/-- The same construction input with battery heating requested. -/
def packSmallHeated : BatteryPack :=
  BatteryPack.create (1998/125) 800 2 1 none 25 true randHalf

/-- The simulation owning `packSmall` on a Supercharger. -/
def simSmall : ChargingSimulation :=
  ChargingSimulation.create packSmall ChargerType.supercharger

/-- A cell at 50% SoC: initial SoC 1/2 with the SoC jitter draw 1/2, so the
jitter factor is exactly 1. -/
def cellA : Cell := Cell.make (1/2) 25 (1/2) 0 0

/-- A cell at 100% SoC. -/
def cellB : Cell := Cell.make 1 25 (1/2) 0 0

/-- A two-cell pack whose cells share capacity but differ in SoC. -/
def packTwo : BatteryPack :=
  { cells := [cellA, cellB]
    systemVoltage := 400
    maxCRate := 2
    coolingPower := 1
    maxCarPower := none
    limitingFactor := none
    initialTemperature := 25
    batteryHeatingEnabled := false
    cellsInSeries := 2
    cellsInParallel := 1
    balancingIntensity := 0
    avgSoc := 0
    cellsBalanced := 0 }

/-- A stand-in for `Math.exp` in closed instances (the claims proved here
hold for every exponential function). -/
def expStub : ℚ → ℚ := fun _ => 1

/-- A concrete recorded sample, used to instantiate history-cap facts. -/
def samplePoint : SimulationDataPoint :=
  { time := 0, soc := 0, power := 0, current := 0, voltage := 0,
    temperature := 25, heatingEnabled := none }

/-- The seven named limiting-factor labels of `determineLimitingFactor`,
as stored on the pack. -/
def namedLimitLabels : List (Option String) :=
  (["Charger", "C-rate", "Car", "Temperature (hot)", "Temperature (cold)",
    "Cell balancing", "SoC"]).map some

/-- The fallback label of `determineLimitingFactor`
(`src/unnamed/part_003` line 316). -/
def unknownLabel : String :=
  "Unknown limit"

/-- An IEEE-style JavaScript number: NaN, the two infinities, or a finite
value (modelled exactly as a rational; signed zero is not distinguished).
The rational embedding above is total (0/0 = 0 in ℚ), which silences the
NaN paths of the source; this layer models them faithfully where a claim
depends on them. -/
inductive JSNum where
  | nan : JSNum
  | posInf : JSNum
  | negInf : JSNum
  | num : ℚ → JSNum
deriving DecidableEq

/-- JavaScript addition: NaN propagates, opposite infinities give NaN. -/
def jsAdd : JSNum → JSNum → JSNum
  | JSNum.nan, _ => JSNum.nan
  | _, JSNum.nan => JSNum.nan
  | JSNum.posInf, JSNum.negInf => JSNum.nan
  | JSNum.negInf, JSNum.posInf => JSNum.nan
  | JSNum.posInf, _ => JSNum.posInf
  | _, JSNum.posInf => JSNum.posInf
  | JSNum.negInf, _ => JSNum.negInf
  | _, JSNum.negInf => JSNum.negInf
  | JSNum.num a, JSNum.num b => JSNum.num (a + b)

/-- JavaScript subtraction: NaN propagates, same-signed infinities give
NaN. -/
def jsSub : JSNum → JSNum → JSNum
  | JSNum.nan, _ => JSNum.nan
  | _, JSNum.nan => JSNum.nan
  | JSNum.posInf, JSNum.posInf => JSNum.nan
  | JSNum.negInf, JSNum.negInf => JSNum.nan
  | JSNum.posInf, _ => JSNum.posInf
  | JSNum.negInf, _ => JSNum.negInf
  | _, JSNum.posInf => JSNum.negInf
  | _, JSNum.negInf => JSNum.posInf
  | JSNum.num a, JSNum.num b => JSNum.num (a - b)

/-- JavaScript `Math.abs`. -/
def jsAbs : JSNum → JSNum
  | JSNum.nan => JSNum.nan
  | JSNum.posInf => JSNum.posInf
  | JSNum.negInf => JSNum.posInf
  | JSNum.num a => JSNum.num |a|

/-- JavaScript division: NaN propagates, 0/0 and Inf/Inf are NaN, a
nonzero finite value divided by zero is a signed infinity, a finite value
divided by an infinity is zero. -/
def jsDiv : JSNum → JSNum → JSNum
  | JSNum.nan, _ => JSNum.nan
  | _, JSNum.nan => JSNum.nan
  | JSNum.posInf, JSNum.posInf => JSNum.nan
  | JSNum.posInf, JSNum.negInf => JSNum.nan
  | JSNum.negInf, JSNum.posInf => JSNum.nan
  | JSNum.negInf, JSNum.negInf => JSNum.nan
  | JSNum.posInf, JSNum.num b => if b < 0 then JSNum.negInf else JSNum.posInf
  | JSNum.negInf, JSNum.num b => if b < 0 then JSNum.posInf else JSNum.negInf
  | JSNum.num _, JSNum.posInf => JSNum.num 0
  | JSNum.num _, JSNum.negInf => JSNum.num 0
  | JSNum.num a, JSNum.num b =>
      if b = 0 then
        (if a = 0 then JSNum.nan else if a < 0 then JSNum.negInf else JSNum.posInf)
      else JSNum.num (a / b)

/-- The JavaScript `<` comparison: false whenever either side is NaN. -/
def jsLt : JSNum → JSNum → Bool
  | JSNum.nan, _ => false
  | _, JSNum.nan => false
  | JSNum.negInf, JSNum.negInf => false
  | JSNum.negInf, _ => true
  | _, JSNum.negInf => false
  | JSNum.posInf, _ => false
  | JSNum.num _, JSNum.posInf => true
  | JSNum.num a, JSNum.num b => decide (a < b)

/-- JavaScript `Math.min` of two values: NaN if either is NaN. -/
def jsMin (a b : JSNum) : JSNum :=
  match a, b with
  | JSNum.nan, _ => JSNum.nan
  | _, JSNum.nan => JSNum.nan
  | x, y => if jsLt y x then y else x

/-- JavaScript `Math.max` of two values: NaN if either is NaN. -/
def jsMax (a b : JSNum) : JSNum :=
  match a, b with
  | JSNum.nan, _ => JSNum.nan
  | _, JSNum.nan => JSNum.nan
  | x, y => if jsLt x y then y else x

/-- `totalVoltage` (`src/unnamed/part_003` lines 131-150) under JavaScript
number semantics: for `cellsInParallel = 0` each series group computes
`0 / 0 = NaN`, which the rational embedding cannot express. -/
def BatteryPack.totalVoltageJS (p : BatteryPack) : JSNum :=
  (List.range p.cellsInSeries).foldl
    (fun totalV s =>
      let groupV := (List.range p.cellsInParallel.toNat).foldl
        (fun g q =>
          let cellIndex := s + q * p.cellsInSeries
          if cellIndex < p.cells.length then
            jsAdd g (JSNum.num (p.cells.getD cellIndex (Cell.make 0 25 0 0 0)).voltage)
          else g)
        (JSNum.num 0)
      jsAdd totalV (jsDiv groupV (JSNum.num (p.cellsInParallel : ℚ))))
    (JSNum.num 0)

/-- `averageTemperature` (`src/unnamed/part_003` lines 162-164) under
JavaScript number semantics: `0 / 0 = NaN` on an empty pack. -/
def BatteryPack.averageTemperatureJS (p : BatteryPack) : JSNum :=
  jsDiv (JSNum.num (p.cells.foldl (fun s c => s + c.temperature) 0))
    (JSNum.num (p.cells.length : ℚ))

/-- `maxTemperature` (`src/unnamed/part_003` lines 166-168) under
JavaScript number semantics: `Math.max()` of no arguments is -Infinity. -/
def BatteryPack.maxTemperatureJS (p : BatteryPack) : JSNum :=
  (p.cells.map fun c => JSNum.num c.temperature).foldl jsMax JSNum.negInf

/-- The C-rate limit (`src/unnamed/part_003` line 210) under JavaScript
number semantics; the numerator is finite, the division inherits NaN or
zero denominators. -/
def cRateLimitJSF (maxCRate energyCapacityKWh : ℚ) (totalVoltage : JSNum) : JSNum :=
  jsDiv (JSNum.num (maxCRate * energyCapacityKWh * 1000)) totalVoltage

/-- The car-power limit (`src/unnamed/part_003` lines 213-216) under
JavaScript number semantics. -/
def powerLimitJSF (maxCarPower : Option ℚ) (totalVoltage : JSNum) : JSNum :=
  match maxCarPower with
  | none => JSNum.num MAX_VALUE
  | some mcp =>
      if mcp = 0 then JSNum.num MAX_VALUE
      else jsDiv (JSNum.num (mcp * 1000)) totalVoltage

/-- The cold-temperature limit (`src/unnamed/part_003` lines 222-235)
under JavaScript number semantics: the branch is entered only when
`averageTemperature < 20` is true, which excludes NaN and +Infinity, so
inside the branch `Math.max(0, avgTemp)` is the finite `max 0 t` (or 0 for
-Infinity); the `JSNum.nan` arm is unreachable there. -/
def coldTemperatureLimitJSF (maxChargerCurrent : ℚ) (averageTemperature : JSNum) : JSNum :=
  if jsLt averageTemperature (JSNum.num 20) then
    match jsMax (JSNum.num 0) averageTemperature with
    | JSNum.num t => JSNum.num (maxChargerCurrent * max (2/100) (((t + 5) / 20) ^ 2))
    | _ => JSNum.nan
  else JSNum.num MAX_VALUE

/-- The hot-temperature limit (`src/unnamed/part_003` lines 237-246) under
JavaScript number semantics: the branch is entered only when
`40 < maxTemperature` is true, which excludes NaN and -Infinity; for
+Infinity the reduction factor `max(0, 1 - Infinity/25)` is 0. -/
def temperatureLimitJSF (maxChargerCurrent : ℚ) (maxTemperature : JSNum) : JSNum :=
  if jsLt (JSNum.num 40) maxTemperature then
    match maxTemperature with
    | JSNum.num t => JSNum.num (maxChargerCurrent * max 0 (1 - (t - 40) / 25))
    | _ => JSNum.num 0
  else JSNum.num MAX_VALUE

/-- The SoC taper limit (`src/unnamed/part_003` lines 252-261); the stored
`_avgSoc` is a finite number, so this candidate is always finite. -/
def socLimitJSF (e : ℚ → ℚ) (maxChargerCurrent avgSoc : ℚ) : JSNum :=
  if avgSoc > 7/10 then
    JSNum.num (maxChargerCurrent * min 1 (e (-8 * (avgSoc - 7/10))))
  else JSNum.num MAX_VALUE

/-- The balancing limit (`src/unnamed/part_003` lines 264-268); always
finite. -/
def balancingLimitJSF (maxChargerCurrent balancingIntensity : ℚ) : JSNum :=
  if 0 < balancingIntensity then
    JSNum.num (maxChargerCurrent * (1 - balancingIntensity * 50))
  else JSNum.num MAX_VALUE

/-- `determineLimitingFactor` (`src/unnamed/part_003` lines 296-317) under
JavaScript number semantics: when `limitedCurrent` is NaN every tolerance
test `|limited - candidate| < 0.1` is false and the fallback is
returned. -/
def determineLimitingFactorJS (limitedCurrent chargerMax cRateLimit powerLimit
    tempLimit coldTempLimit balancingLimit socLimit : JSNum) : String :=
  if jsLt (jsAbs (jsSub limitedCurrent chargerMax)) (JSNum.num (1/10)) then "Charger"
  else if jsLt (jsAbs (jsSub limitedCurrent cRateLimit)) (JSNum.num (1/10)) then "C-rate"
  else if jsLt (jsAbs (jsSub limitedCurrent powerLimit)) (JSNum.num (1/10)) then "Car"
  else if jsLt (jsAbs (jsSub limitedCurrent tempLimit)) (JSNum.num (1/10)) then
    "Temperature (hot)"
  else if jsLt (jsAbs (jsSub limitedCurrent coldTempLimit)) (JSNum.num (1/10)) then
    "Temperature (cold)"
  else if jsLt (jsAbs (jsSub limitedCurrent balancingLimit)) (JSNum.num (1/10)) then
    "Cell balancing"
  else if jsLt (jsAbs (jsSub limitedCurrent socLimit)) (JSNum.num (1/10)) then "SoC"
  else "Unknown limit"

/-- `calculateChargingCurrent` (`src/unnamed/part_003` lines 205-294) under
JavaScript number semantics, including the `disableHeating` side effect:
the mirror of `BatteryPack.calculateChargingCurrent` with the NaN paths
kept. -/
def BatteryPack.calculateChargingCurrentJS (e : ℚ → ℚ) (p : BatteryPack)
    (maxChargerCurrent : ℚ) : JSNum × BatteryPack :=
  let cRateLimit := cRateLimitJSF p.maxCRate p.energyCapacityKWh p.totalVoltageJS
  let powerLimit := powerLimitJSF p.maxCarPower p.totalVoltageJS
  let coldTemperatureLimit := coldTemperatureLimitJSF maxChargerCurrent p.averageTemperatureJS
  let p1 := if jsLt p.averageTemperatureJS (JSNum.num 20) then p
    else if p.batteryHeatingEnabled then p.disableHeating else p
  let temperatureLimit := temperatureLimitJSF maxChargerCurrent p1.maxTemperatureJS
  let socLimit := socLimitJSF e maxChargerCurrent (p1.averageSoc / 100)
  let balancingLimit := balancingLimitJSF maxChargerCurrent p1.balancingIntensity
  let limitedCurrent := jsMin (JSNum.num maxChargerCurrent) (jsMin cRateLimit
    (jsMin powerLimit (jsMin temperatureLimit (jsMin coldTemperatureLimit
      (jsMin balancingLimit socLimit)))))
  let label := determineLimitingFactorJS limitedCurrent (JSNum.num maxChargerCurrent)
    cRateLimit powerLimit temperatureLimit coldTemperatureLimit balancingLimit socLimit
  (limitedCurrent, { p1 with limitingFactor := some label })

/-- The zero-cell pack produced by the constructor for 5 kWh on an 800 V
system (the construction input of the C1 analysis). -/
def packZero : BatteryPack :=
  BatteryPack.create 5 800 2 1 none 25 false randHalf

theorem foldl_add_map (f : Cell → ℚ) (l : List Cell) :
    ∀ a : ℚ, l.foldl (fun s c => s + f c) a = a + (l.map f).sum := by
  induction l with
  | nil => intro a; simp
  | cons c t ih => intro a; simp [ih, add_assoc]

theorem foldl_pair_add_map (f g : Cell → ℚ) (l : List Cell) :
    ∀ a b : ℚ,
      l.foldl (fun acc c => (acc.1 + f c, acc.2 + g c)) (a, b) =
        (a + (l.map f).sum, b + (l.map g).sum) := by
  induction l with
  | nil => intro a b; simp
  | cons c t ih => intro a b; simp [ih, add_assoc]

theorem foldl_add_const {β : Type} (v : ℚ) (l : List β) :
    ∀ a : ℚ, l.foldl (fun s _ => s + v) a = a + l.length * v := by
  induction l with
  | nil => intro a; simp
  | cons c t ih => intro a; simp [ih]; ring

theorem getD_replicate (c d : Cell) :
    ∀ (n i : ℕ), i < n → (List.replicate n c).getD i d = c := by
  intro n
  induction n with
  | zero => intro i hi; omega
  | succ m ih =>
    intro i hi
    cases i with
    | zero => simp [List.replicate_succ]
    | succ j =>
      simp only [List.replicate_succ, List.getD_cons_succ]
      exact ih j (by omega)

theorem averageTemperature_replicate (p : BatteryPack) (c : Cell) (n : ℕ)
    (hn : n ≠ 0) (hc : p.cells = List.replicate n c) :
    p.averageTemperature = c.temperature := by
  unfold BatteryPack.averageTemperature
  rw [hc, foldl_add_map]
  have hn' : (n : ℚ) ≠ 0 := Nat.cast_ne_zero.mpr hn
  simp [List.map_replicate, List.sum_replicate, nsmul_eq_mul]
  field_simp

theorem totalVoltage_uniform (p : BatteryPack) (c : Cell) (P : ℕ)
    (hP : p.cellsInParallel = (P : ℤ)) (hP0 : P ≠ 0)
    (hc : p.cells = List.replicate (p.cellsInSeries * P) c) :
    p.totalVoltage = p.cellsInSeries * c.voltage := by
  unfold BatteryPack.totalVoltage
  rw [hc, hP]
  have hP' : (P : ℚ) ≠ 0 := Nat.cast_ne_zero.mpr hP0
  have hinner : ∀ s ∈ List.range p.cellsInSeries,
      (List.range ((P : ℤ)).toNat).foldl
        (fun g q =>
          if s + q * p.cellsInSeries < (List.replicate (p.cellsInSeries * P) c).length then
            g + ((List.replicate (p.cellsInSeries * P) c).getD (s + q * p.cellsInSeries)
              (Cell.make 0 25 0 0 0)).voltage
          else g)
        0 = P * c.voltage := by
    intro s hs
    have hsS : s < p.cellsInSeries := List.mem_range.mp hs
    rw [List.foldl_ext _ (fun g _ => g + c.voltage)]
    · rw [foldl_add_const]
      simp
    · intro a q hq
      have hqP : q < P := by
        have := List.mem_range.mp hq
        simpa using this
      have hidx : s + q * p.cellsInSeries < p.cellsInSeries * P := by
        have h1 : s + q * p.cellsInSeries < (q + 1) * p.cellsInSeries := by
          rw [Nat.succ_mul]; omega
        have h2 : (q + 1) * p.cellsInSeries ≤ P * p.cellsInSeries :=
          Nat.mul_le_mul_right _ hqP
        calc s + q * p.cellsInSeries < (q + 1) * p.cellsInSeries := h1
          _ ≤ P * p.cellsInSeries := h2
          _ = p.cellsInSeries * P := Nat.mul_comm P p.cellsInSeries
      rw [if_pos (by simpa using hidx), getD_replicate _ _ _ _ hidx]
  rw [List.foldl_ext _ (fun totalV _ => totalV + (P * c.voltage) / (P : ℚ))]
  · rw [foldl_add_const, mul_div_cancel_left₀ _ hP']
    simp
  · intro a s hs
    rw [hinner s hs]
    norm_num

theorem cellHalf_fields :
    cellHalf.stateOfCharge = 0 ∧ cellHalf.temperature = 25 ∧
      cellHalf.capacity = 10 ∧ cellHalf.voltage = 17/5 ∧
      cellHalf.energy = 37 ∧ cellHalf.nominalVoltage = 37/10 ∧
      cellHalf.heatingEnabled = false := by
  norm_num [cellHalf, Cell.make, Cell.voltage, Cell.energy]

theorem packSmall_cellsInSeries : packSmall.cellsInSeries = 216 := by
  norm_num [packSmall, BatteryPack.create]

theorem packSmall_cellsInParallel : packSmall.cellsInParallel = 2 := by
  norm_num [packSmall, BatteryPack.create, Cell.make, Cell.energy]

theorem packSmall_cells : packSmall.cells = List.replicate 432 cellHalf := by
  norm_num [packSmall, BatteryPack.create, Cell.make, Cell.energy, randHalf,
    cellHalf, List.map_const', List.length_range]
  decide

theorem packSmall_maxCRate : packSmall.maxCRate = 2 := by
  norm_num [packSmall, BatteryPack.create]

theorem packSmallHeated_cells :
    packSmallHeated.cells = List.replicate 432 cellHalfHeated := by
  norm_num [packSmallHeated, BatteryPack.create, BatteryPack.enableHeating,
    Cell.make, Cell.energy, randHalf, cellHalfHeated, cellHalf,
    List.map_const', List.length_range, List.map_replicate]
  decide

theorem packSmallHeated_heatingEnabled :
    packSmallHeated.batteryHeatingEnabled = true := by
  norm_num [packSmallHeated, BatteryPack.create, BatteryPack.enableHeating]

theorem packSmallHeated_averageTemperature :
    packSmallHeated.averageTemperature = 25 := by
  have h := averageTemperature_replicate packSmallHeated cellHalfHeated 432
    (by norm_num) packSmallHeated_cells
  rw [h]
  norm_num [cellHalfHeated, cellHalf, Cell.make]

theorem packSmall_totalVoltage : packSmall.totalVoltage = 3672/5 := by
  have h := totalVoltage_uniform packSmall cellHalf 2
    (by rw [packSmall_cellsInParallel]; norm_num) (by norm_num)
    (by rw [packSmall_cells, packSmall_cellsInSeries])
  rw [h, packSmall_cellsInSeries]
  have hv := cellHalf_fields.2.2.2.1
  rw [hv]
  norm_num

theorem packSmall_energyCapacityKWh : packSmall.energyCapacityKWh = 1998/125 := by
  unfold BatteryPack.energyCapacityKWh
  rw [packSmall_cells, show (432 : ℕ) = 431 + 1 from rfl, List.replicate_succ]
  norm_num [cellHalf_fields.2.2.2.2.1]

/-- C3: for every cell whose stateOfCharge starts in [0,1] (with the
constructor-guaranteed well-formedness: positive capacity, non-negative
stored charge, random factor and base efficiency), every non-negative
current and every non-negative deltaTimeHours, after `Cell.updateCharge`
the state of charge stays in [0,1] and the stored charge never exceeds the
capacity: overcharge is silently clipped, not reported as an error. -/
theorem cell_updateCharge_soc_in_unit_interval (c : Cell) (current deltaTimeHours : ℚ)
    (hcap : 0 < c.capacity) (hch : 0 ≤ c.charge) (hrf : 0 ≤ c.randomFactor)
    (heff : 0 ≤ c.chargingEfficiency)
    (hsoc0 : 0 ≤ c.stateOfCharge) (hsoc1 : c.stateOfCharge ≤ 1)
    (hcur : 0 ≤ current) (hdt : 0 ≤ deltaTimeHours) :
    0 ≤ (c.updateCharge current deltaTimeHours).stateOfCharge ∧
      (c.updateCharge current deltaTimeHours).stateOfCharge ≤ 1 ∧
      (c.updateCharge current deltaTimeHours).charge ≤ c.capacity := by
  simp only [Cell.updateCharge]
  have hadd : 0 ≤ current * (c.chargingEfficiency * (95/100 + c.randomFactor * (10/100))) *
      deltaTimeHours :=
    mul_nonneg (mul_nonneg hcur (mul_nonneg heff (by linarith))) hdt
  have hnc0 : 0 ≤ c.charge + current * (c.chargingEfficiency *
      (95/100 + c.randomFactor * (10/100))) * deltaTimeHours := add_nonneg hch hadd
  split_ifs with h
  · refine ⟨by norm_num, by norm_num, ?_⟩
    show c.capacity ≤ c.capacity
    exact le_refl _
  · refine ⟨?_, ?_, ?_⟩
    · show 0 ≤ min (c.charge + current * (c.chargingEfficiency *
        (95/100 + c.randomFactor * (10/100))) * deltaTimeHours) c.capacity / c.capacity
      exact div_nonneg (le_min hnc0 hcap.le) hcap.le
    · exact not_lt.mp h
    · show min (c.charge + current * (c.chargingEfficiency *
        (95/100 + c.randomFactor * (10/100))) * deltaTimeHours) c.capacity ≤ c.capacity
      exact min_le_right _ _

/-- Witness for C3: a half-charged cell hit with a grossly overcharging
current for one hour still ends with SoC in [0,1]. -/
theorem cell_updateCharge_soc_in_unit_interval_witness :
    0 ≤ ((Cell.make (1/2) 25 (1/2) (1/2) (1/2)).updateCharge 10000 1).stateOfCharge ∧
      ((Cell.make (1/2) 25 (1/2) (1/2) (1/2)).updateCharge 10000 1).stateOfCharge ≤ 1 ∧
      ((Cell.make (1/2) 25 (1/2) (1/2) (1/2)).updateCharge 10000 1).charge ≤
        (Cell.make (1/2) 25 (1/2) (1/2) (1/2)).capacity :=
  cell_updateCharge_soc_in_unit_interval _ 10000 1
    (by norm_num [Cell.make]) (by norm_num [Cell.make]) (by norm_num [Cell.make])
    (by norm_num [Cell.make]) (by norm_num [Cell.make]) (by norm_num [Cell.make])
    (by norm_num) (by norm_num)

/-- C7: for every pack state with averageTemperature below the 20°C cold
cutoff and a positive charger maximum, the cold-temperature candidate
ceiling equals `chargerMax × max(0.02, ((max(0, avgTemp) + 5) / 20)²)` and,
because of the 0.02 floor, is strictly positive — it alone never drives the
permitted charging current to exactly zero. -/
theorem coldTemperatureLimit_formula_and_positive (maxChargerCurrent averageTemperature : ℚ)
    (hcold : averageTemperature < 20) (hmax : 0 < maxChargerCurrent) :
    coldTemperatureLimitF maxChargerCurrent averageTemperature =
      maxChargerCurrent * max (2/100) (((max 0 averageTemperature + 5) / 20) ^ 2) ∧
      0 < coldTemperatureLimitF maxChargerCurrent averageTemperature := by
  unfold coldTemperatureLimitF
  rw [if_pos hcold]
  refine ⟨rfl, ?_⟩
  have h2 : (0:ℚ) < max (2/100) (((max 0 averageTemperature + 5) / 20) ^ 2) :=
    lt_of_lt_of_le (by norm_num) (le_max_left _ _)
  exact mul_pos hmax h2

/-- Witness for C7: at -30°C average temperature and a 625 A charger the
cold ceiling follows the formula and is strictly positive. -/
theorem coldTemperatureLimit_formula_and_positive_witness :
    coldTemperatureLimitF 625 (-30) =
      625 * max (2/100) (((max 0 (-30 : ℚ) + 5) / 20) ^ 2) ∧
      0 < coldTemperatureLimitF 625 (-30) :=
  coldTemperatureLimit_formula_and_positive 625 (-30) (by norm_num) (by norm_num)

/-- C2: the value recomputed by `calculateAvgSoc` is exactly the
energy-weighted formula `Σ(SoC·capacity·voltage) / Σ(capacity·voltage)` as
a percentage, for every pack; and on a two-cell pack with equal capacities
but different SoC it differs from the naive arithmetic mean of SoC. -/
theorem calculateAvgSoc_energy_weighted :
    (∀ p : BatteryPack, (p.calculateAvgSoc).1 = energyWeightedSoCPercent p) ∧
      cellA.capacity = cellB.capacity ∧
      cellA.stateOfCharge ≠ cellB.stateOfCharge ∧
      (packTwo.calculateAvgSoc).1 ≠ naiveMeanSoCPercent packTwo := by
  refine ⟨?_, ?_, ?_, ?_⟩
  · intro p
    simp only [BatteryPack.calculateAvgSoc, energyWeightedSoCPercent]
    rw [foldl_pair_add_map]
    norm_num
  · norm_num [cellA, cellB, Cell.make]
  · norm_num [cellA, cellB, Cell.make]
  · simp only [BatteryPack.calculateAvgSoc, naiveMeanSoCPercent, packTwo]
    norm_num [cellA, cellB, Cell.make, Cell.voltage]

/-- Counterexample for C6: on a concrete constructor-built pack the C-rate
ceiling computed by `calculateChargingCurrent` is not
`maxCRate × totalCapacityAh`. -/
theorem cRateLimit_capacity_based_counterexample :
    packSmall.cRateLimit ≠ specCapacityBasedCRateCeiling packSmall := by
  unfold BatteryPack.cRateLimit cRateLimitF specCapacityBasedCRateCeiling specTotalCapacityAh
  rw [packSmall_energyCapacityKWh, packSmall_totalVoltage, packSmall_maxCRate,
    packSmall_cells, show (432 : ℕ) = 431 + 1 from rfl, List.replicate_succ]
  norm_num [cellHalf_fields.2.2.1]

/-- C6 as amended: the C-rate ceiling used inside `calculateChargingCurrent`
is power-based, `maxCRate × energyCapacityKWh × 1000 / totalVoltage`, and
its numerator factors as `maxCRate × totalCapacityAh × nominalCellVoltage` —
it is not `maxCRate × totalCapacityAh`. -/
theorem cRateLimit_power_based (p : BatteryPack) :
    p.cRateLimit = p.maxCRate * p.energyCapacityKWh * 1000 / p.totalVoltage ∧
      p.maxCRate * p.energyCapacityKWh * 1000 =
        p.maxCRate * specTotalCapacityAh p * specNominalCellVoltage p := by
  constructor
  · rfl
  · unfold BatteryPack.energyCapacityKWh specTotalCapacityAh specNominalCellVoltage
    cases hc : p.cells with
    | nil => norm_num
    | cons c t =>
      simp only [Cell.energy]
      ring

/-- C1 (evaluation of the failing input): constructing a pack for 5 kWh on
an 800 V system makes the derived parallel-string count floor to 0, and the
constructor silently returns a pack with zero cells instead of rejecting
the configuration. -/
theorem batteryPack_create_zero_cells_silently :
    (BatteryPack.create 5 800 2 1 none 25 false randHalf).cellsInParallel = 0 ∧
      (BatteryPack.create 5 800 2 1 none 25 false randHalf).cells.length = 0 := by
  have hfloor : (⌊(5 * 1000 / (Cell.make 0 25 0 0 0).energy / 216 : ℚ)⌋ : ℤ) = 0 := by
    rw [Int.floor_eq_zero_iff]
    constructor
    · norm_num [Cell.make, Cell.energy]
    · norm_num [Cell.make, Cell.energy]
  constructor
  · simp only [BatteryPack.create, hfloor]
    norm_num
  · simp only [BatteryPack.create, hfloor]
    norm_num

theorem temperatureLimitF_antitone (maxChargerCurrent t1 t2 : ℚ)
    (h0 : 0 ≤ maxChargerCurrent) (hM : maxChargerCurrent ≤ MAX_VALUE) (h12 : t1 ≤ t2) :
    temperatureLimitF maxChargerCurrent t2 ≤ temperatureLimitF maxChargerCurrent t1 := by
  unfold temperatureLimitF
  split_ifs with h1 h2 h3
  · apply mul_le_mul_of_nonneg_left _ h0
    exact max_le_max (le_refl 0) (by linarith)
  · have hfac : max 0 (1 - (t2 - 40) / 25) ≤ 1 := by
      apply max_le (by norm_num)
      have : (0:ℚ) ≤ (t2 - 40) / 25 := div_nonneg (by linarith) (by norm_num)
      linarith
    calc maxChargerCurrent * max 0 (1 - (t2 - 40) / 25)
        ≤ maxChargerCurrent * 1 := mul_le_mul_of_nonneg_left hfac h0
      _ = maxChargerCurrent := mul_one _
      _ ≤ MAX_VALUE := hM
  · exact absurd (lt_of_lt_of_le h3 h12) h1
  · exact le_refl _

/-- C4: the current returned by `calculateChargingCurrent` never exceeds
the charger maximum, for every pack state; and, holding every other input
fixed, the computed current is monotonically non-increasing in the pack's
maximum temperature (in particular as it rises past the 40°C hot
threshold). -/
theorem calculateChargingCurrent_bounded_and_hot_antitone :
    (∀ (e : ℚ → ℚ) (p : BatteryPack) (maxChargerCurrent : ℚ),
        (p.calculateChargingCurrent e maxChargerCurrent).1 ≤ maxChargerCurrent) ∧
      (∀ (e : ℚ → ℚ) (maxChargerCurrent maxCRate energyCapacityKWh totalVoltage : ℚ)
          (maxCarPower : Option ℚ) (averageTemperature avgSoc100 balancingIntensity t1 t2 : ℚ),
          0 ≤ maxChargerCurrent → maxChargerCurrent ≤ MAX_VALUE → t1 ≤ t2 →
          chargingCurrentValue e maxChargerCurrent maxCRate energyCapacityKWh totalVoltage
              maxCarPower averageTemperature t2 avgSoc100 balancingIntensity ≤
            chargingCurrentValue e maxChargerCurrent maxCRate energyCapacityKWh totalVoltage
              maxCarPower averageTemperature t1 avgSoc100 balancingIntensity) := by
  constructor
  · intro e p maxChargerCurrent
    simp only [BatteryPack.calculateChargingCurrent, limitedCurrentF]
    exact min_le_left _ _
  · intro e maxChargerCurrent maxCRate energyCapacityKWh totalVoltage maxCarPower
      averageTemperature avgSoc100 balancingIntensity t1 t2 h0 hM h12
    have htemp := temperatureLimitF_antitone maxChargerCurrent t1 t2 h0 hM h12
    unfold chargingCurrentValue limitedCurrentF
    exact min_le_min (le_refl _) (min_le_min (le_refl _) (min_le_min (le_refl _)
      (min_le_min htemp (le_refl _))))

/-- Witness for C4: the bound at the concrete constructor-built pack, and
the monotone comparison at 41°C versus 45°C. -/
theorem calculateChargingCurrent_bounded_and_hot_antitone_witness :
    (packSmall.calculateChargingCurrent expStub 625).1 ≤ 625 ∧
      chargingCurrentValue expStub 625 2 1 1 none 25 45 50 0 ≤
        chargingCurrentValue expStub 625 2 1 1 none 25 41 50 0 :=
  ⟨calculateChargingCurrent_bounded_and_hot_antitone.1 expStub packSmall 625,
    calculateChargingCurrent_bounded_and_hot_antitone.2 expStub 625 2 1 1 none 25 50 0 41 45
      (by norm_num) (by norm_num [MAX_VALUE]) (by norm_num)⟩

theorem packSmall_batteryHeatingEnabled : packSmall.batteryHeatingEnabled = false := by
  norm_num [packSmall, BatteryPack.create]

theorem packSmall_initialTemperature : packSmall.initialTemperature = 25 := by
  norm_num [packSmall, BatteryPack.create]

/-- C5 (evaluation at the failing input): immediately after construction
every cell of the freshly built simulation has SoC 0 (the pack constructs
cells with initial SoC 0.0), but after `reset()` every cell has the
hard-coded SoC 0.1 — so reset does not reproduce the post-construction
state, although elapsed time is zero and the history is a single entry. -/
theorem simulation_reset_not_construction_state :
    simSmall.batteryPack.cells = List.replicate 432 cellHalf ∧
      cellHalf.stateOfCharge = 0 ∧
      simSmall.reset.batteryPack.cells = List.replicate 432 cellHalfReset ∧
      cellHalfReset.stateOfCharge = 1/10 ∧
      simSmall.reset.elapsedTime = 0 ∧
      simSmall.reset.dataPoints.length = 1 ∧
      (0 : ℚ) ≠ 1/10 := by
  have hbp : simSmall.batteryPack = packSmall := rfl
  have hrbp : simSmall.reset.batteryPack = packSmall.reset := rfl
  refine ⟨by rw [hbp]; exact packSmall_cells, cellHalf_fields.1, ?_, ?_, ?_, ?_, by norm_num⟩
  · rw [hrbp]
    simp only [BatteryPack.reset]
    set_option maxRecDepth 8000 in
    simp [packSmall_batteryHeatingEnabled, BatteryPack.disableHeating, packSmall_cells,
      packSmall_initialTemperature, List.map_replicate, Cell.reset, cellHalfReset]
  · norm_num [cellHalfReset, cellHalf, Cell.make]
  · rfl
  · rfl

/-- C8: a concrete pack state with battery heating enabled and average
temperature at the 20°C cutoff or above, on which `calculateChargingCurrent`
mutates the pack as a side effect: it flips `batteryHeatingEnabled` to
false and disables `heatingEnabled` on every cell. -/
theorem calculateChargingCurrent_heating_side_effect :
    packSmallHeated.batteryHeatingEnabled = true ∧
      packSmallHeated.averageTemperature = 25 ∧
      ((packSmallHeated.calculateChargingCurrent expStub 625).2).batteryHeatingEnabled = false ∧
      ((packSmallHeated.calculateChargingCurrent expStub 625).2).cells =
        List.replicate 432 cellHalf ∧
      cellHalf.heatingEnabled = false := by
  refine ⟨packSmallHeated_heatingEnabled, packSmallHeated_averageTemperature, ?_, ?_,
    cellHalf_fields.2.2.2.2.2.2⟩
  · simp only [BatteryPack.calculateChargingCurrent]
    rw [packSmallHeated_averageTemperature, packSmallHeated_heatingEnabled]
    norm_num [BatteryPack.disableHeating]
  · simp only [BatteryPack.calculateChargingCurrent]
    rw [packSmallHeated_averageTemperature, packSmallHeated_heatingEnabled]
    norm_num [BatteryPack.disableHeating, packSmallHeated_cells, List.map_replicate,
      cellHalfHeated, cellHalf]

theorem enumFrom_filter_even_shift (l : List SimulationDataPoint) :
    ∀ n : ℕ,
      ((List.enumFrom (n + 2) l).filter fun pr => pr.1 % 2 = 0).map Prod.snd =
        ((List.enumFrom n l).filter fun pr => pr.1 % 2 = 0).map Prod.snd := by
  induction l with
  | nil => intro n; simp
  | cons a t ih =>
    intro n
    have hmod : (n + 2) % 2 = n % 2 := by omega
    by_cases h : n % 2 = 0
    · simp [List.enumFrom, List.filter_cons, hmod, h, ih (n + 1)]
    · simp [List.enumFrom, List.filter_cons, hmod, h, ih (n + 1)]

theorem filterEvenIdx_eq_everyOther (l : List SimulationDataPoint) :
    filterEvenIdx l = everyOther l := by
  induction l using everyOther.induct with
  | case1 => simp [filterEvenIdx, everyOther]
  | case2 a => simp [filterEvenIdx, everyOther, List.enum, List.enumFrom]
  | case3 a b rest ih =>
    show filterEvenIdx (a :: b :: rest) = a :: everyOther rest
    unfold filterEvenIdx
    have h2 : List.enum (a :: b :: rest) =
        (0, a) :: (1, b) :: List.enumFrom 2 rest := by
      simp [List.enum, List.enumFrom]
    rw [h2]
    simp only [List.filter_cons]
    norm_num
    rw [← ih]
    unfold filterEvenIdx
    exact enumFrom_filter_even_shift rest 0

theorem everyOther_sublist : ∀ l : List SimulationDataPoint, List.Sublist (everyOther l) l := by
  intro l
  induction l using everyOther.induct with
  | case1 => simp [everyOther]
  | case2 a => simp [everyOther]
  | case3 a b rest ih =>
    show List.Sublist (a :: everyOther rest) (a :: b :: rest)
    exact List.Sublist.cons₂ a (List.Sublist.cons b ih)

theorem everyOther_length :
    ∀ l : List SimulationDataPoint, (everyOther l).length = (l.length + 1) / 2 := by
  intro l
  induction l using everyOther.induct with
  | case1 => simp [everyOther]
  | case2 a => simp [everyOther]
  | case3 a b rest ih =>
    show (a :: everyOther rest).length = ((a :: b :: rest).length + 1) / 2
    simp only [List.length_cons, ih]
    omega

theorem capDataPoints_push_length (dps : List SimulationDataPoint)
    (pt : SimulationDataPoint) (h : dps.length ≤ 1000) :
    (capDataPoints (dps ++ [pt])).length ≤ 1000 := by
  unfold capDataPoints
  split_ifs with h1
  · rw [filterEvenIdx_eq_everyOther, everyOther_length]
    simp only [List.length_append, List.length_singleton] at h1 ⊢
    omega
  · simp only [List.length_append, List.length_singleton] at h1 ⊢
    omega

theorem capDataPoints_fold_length (pts : List SimulationDataPoint) :
    ∀ init : List SimulationDataPoint, init.length ≤ 1000 →
      (pts.foldl (fun acc pt => capDataPoints (acc ++ [pt])) init).length ≤ 1000 := by
  induction pts with
  | nil => intro init h; simpa using h
  | cons p t ih =>
    intro init h
    simp only [List.foldl_cons]
    exact ih _ (capDataPoints_push_length init p h)

/-- C9: whenever a push makes the recorded data-point collection exceed
1000 entries, the driver's cap immediately down-samples it to exactly the
even-indexed entries (an order-preserving sublist of the pushed
collection), and under any sequence of pushes the collection never grows
beyond 1000 entries. -/
theorem dataPoints_cap_downsample_and_bounded :
    (∀ (dps : List SimulationDataPoint) (pt : SimulationDataPoint),
        1000 < (dps ++ [pt]).length →
          capDataPoints (dps ++ [pt]) = everyOther (dps ++ [pt])) ∧
      (∀ l : List SimulationDataPoint, List.Sublist (everyOther l) l) ∧
      (∀ (dps : List SimulationDataPoint) (pt : SimulationDataPoint),
          dps.length ≤ 1000 → (capDataPoints (dps ++ [pt])).length ≤ 1000) ∧
      (∀ (pts init : List SimulationDataPoint), init.length ≤ 1000 →
          (pts.foldl (fun acc pt => capDataPoints (acc ++ [pt])) init).length ≤ 1000) := by
  refine ⟨?_, everyOther_sublist, capDataPoints_push_length, ?_⟩
  · intro dps pt h
    unfold capDataPoints
    rw [if_pos h, filterEvenIdx_eq_everyOther]
  · intro pts init h
    exact capDataPoints_fold_length pts init h

/-- Witness for C9: pushing one sample onto a 1000-entry history triggers
the down-sampling and keeps the collection within the bound. -/
theorem dataPoints_cap_downsample_and_bounded_witness :
    capDataPoints (List.replicate 1000 samplePoint ++ [samplePoint]) =
      everyOther (List.replicate 1000 samplePoint ++ [samplePoint]) ∧
      (capDataPoints (List.replicate 1000 samplePoint ++ [samplePoint])).length ≤ 1000 :=
  ⟨dataPoints_cap_downsample_and_bounded.1 _ _
      (by rw [List.length_append, List.length_replicate, List.length_singleton]; decide),
    dataPoints_cap_downsample_and_bounded.2.2.1 _ _
      (by rw [List.length_replicate])⟩

theorem packZero_fields :
    packZero.cells = [] ∧ packZero.cellsInSeries = 216 ∧ packZero.cellsInParallel = 0 ∧
      packZero.batteryHeatingEnabled = false ∧ packZero.avgSoc = 0 ∧
      packZero.balancingIntensity = 0 ∧ packZero.maxCarPower = none := by
  have hfloor : (⌊(5 * 1000 / (Cell.make 0 25 0 0 0).energy / 216 : ℚ)⌋ : ℤ) = 0 := by
    rw [Int.floor_eq_zero_iff]
    constructor
    · norm_num [Cell.make, Cell.energy]
    · norm_num [Cell.make, Cell.energy]
  refine ⟨?_, ?_, ?_, ?_, ?_, ?_, ?_⟩ <;>
    · simp only [packZero, BatteryPack.create, hfloor]
      norm_num

theorem jsAdd_nan_right (a : JSNum) : jsAdd a JSNum.nan = JSNum.nan := by
  cases a <;> rfl

theorem foldl_jsAdd_nan_const (l : List ℕ) :
    ∀ a : JSNum, l ≠ [] →
      List.foldl (fun tv _ => jsAdd tv JSNum.nan) a l = JSNum.nan := by
  induction l with
  | nil => intro a h; exact absurd rfl h
  | cons x t ih =>
    intro a _
    rw [List.foldl_cons]
    show List.foldl (fun tv _ => jsAdd tv JSNum.nan) (jsAdd a JSNum.nan) t = JSNum.nan
    rw [jsAdd_nan_right]
    cases t with
    | nil => rfl
    | cons y u => exact ih JSNum.nan (by simp)

theorem packZero_totalVoltageJS : packZero.totalVoltageJS = JSNum.nan := by
  unfold BatteryPack.totalVoltageJS
  rw [packZero_fields.1, packZero_fields.2.1, packZero_fields.2.2.1]
  norm_num [jsDiv]
  exact foldl_jsAdd_nan_const _ _ (by simp)

theorem packZero_averageTemperatureJS : packZero.averageTemperatureJS = JSNum.nan := by
  unfold BatteryPack.averageTemperatureJS
  rw [packZero_fields.1]
  norm_num [jsDiv]

theorem packZero_maxTemperatureJS : packZero.maxTemperatureJS = JSNum.negInf := by
  unfold BatteryPack.maxTemperatureJS
  rw [packZero_fields.1]
  simp

/-- Counterexample for C10: on the zero-cell pack that the constructor
silently produces for 5 kWh / 800 V, the JavaScript arithmetic makes
`totalVoltage` and `averageTemperature` NaN, the computed minimum is NaN,
every tolerance test of `determineLimitingFactor` is false, and the stored
limiting-factor label is the "Unknown limit" fallback, which is not one of
the seven named labels — so the fallback branch is reachable and the claim
as stated is false of the program. -/
theorem limitingFactor_unknown_on_zero_cell_pack :
    packZero.cells = [] ∧
      ((packZero.calculateChargingCurrentJS expStub 625).2).limitingFactor =
        some unknownLabel ∧
      some unknownLabel ∉ namedLimitLabels := by
  refine ⟨packZero_fields.1, ?_, by decide⟩
  simp only [BatteryPack.calculateChargingCurrentJS]
  rw [packZero_totalVoltageJS, packZero_averageTemperatureJS]
  norm_num [jsLt, jsMin, jsSub, jsAbs, jsDiv, cRateLimitJSF, powerLimitJSF,
    coldTemperatureLimitJSF, temperatureLimitJSF, socLimitJSF, balancingLimitJSF,
    determineLimitingFactorJS, BatteryPack.averageSoc, unknownLabel,
    packZero_fields.2.2.2.1, packZero_fields.2.2.2.2.1, packZero_fields.2.2.2.2.2.1,
    packZero_fields.2.2.2.2.2.2, packZero_maxTemperatureJS]

theorem jsMin_eq_num (a b : JSNum) (q : ℚ) (h : jsMin a b = JSNum.num q) :
    a = JSNum.num q ∨ b = JSNum.num q := by
  cases a <;> cases b <;>
    simp only [jsMin] at h <;>
    first
      | exact Or.inl h
      | exact Or.inr h
      | (split_ifs at h <;>
          first
            | exact Or.inl h
            | exact Or.inr h)

theorem jsMinChain_eq_num (c1 c2 c3 c4 c5 c6 c7 : JSNum) (q : ℚ)
    (h : jsMin c1 (jsMin c2 (jsMin c3 (jsMin c4 (jsMin c5 (jsMin c6 c7))))) = JSNum.num q) :
    c1 = JSNum.num q ∨ c2 = JSNum.num q ∨ c3 = JSNum.num q ∨ c4 = JSNum.num q ∨
      c5 = JSNum.num q ∨ c6 = JSNum.num q ∨ c7 = JSNum.num q := by
  rcases jsMin_eq_num _ _ _ h with h1 | h1
  · exact Or.inl h1
  rcases jsMin_eq_num _ _ _ h1 with h2 | h2
  · exact Or.inr (Or.inl h2)
  rcases jsMin_eq_num _ _ _ h2 with h3 | h3
  · exact Or.inr (Or.inr (Or.inl h3))
  rcases jsMin_eq_num _ _ _ h3 with h4 | h4
  · exact Or.inr (Or.inr (Or.inr (Or.inl h4)))
  rcases jsMin_eq_num _ _ _ h4 with h5 | h5
  · exact Or.inr (Or.inr (Or.inr (Or.inr (Or.inl h5))))
  rcases jsMin_eq_num _ _ _ h5 with h6 | h6
  · exact Or.inr (Or.inr (Or.inr (Or.inr (Or.inr (Or.inl h6)))))
  exact Or.inr (Or.inr (Or.inr (Or.inr (Or.inr (Or.inr h6)))))

theorem some_determineLimitingFactorJS_mem (c1 c2 c3 c4 c5 c6 c7 : JSNum) (q : ℚ)
    (h : jsMin c1 (jsMin c2 (jsMin c3 (jsMin c4 (jsMin c5 (jsMin c6 c7))))) = JSNum.num q) :
    some (determineLimitingFactorJS
        (jsMin c1 (jsMin c2 (jsMin c3 (jsMin c4 (jsMin c5 (jsMin c6 c7))))))
        c1 c2 c3 c4 c5 c6 c7) ∈ namedLimitLabels := by
  have hmem := jsMinChain_eq_num c1 c2 c3 c4 c5 c6 c7 q h
  rw [h]
  unfold determineLimitingFactorJS
  split_ifs with g1 g2 g3 g4 g5 g6 g7
  · simp [namedLimitLabels]
  · simp [namedLimitLabels]
  · simp [namedLimitLabels]
  · simp [namedLimitLabels]
  · simp [namedLimitLabels]
  · simp [namedLimitLabels]
  · simp [namedLimitLabels]
  · exfalso
    rcases hmem with hc | hc | hc | hc | hc | hc | hc
    · exact g1 (by rw [hc]; simp [jsSub, jsAbs, jsLt, sub_self, abs_zero])
    · exact g2 (by rw [hc]; simp [jsSub, jsAbs, jsLt, sub_self, abs_zero])
    · exact g3 (by rw [hc]; simp [jsSub, jsAbs, jsLt, sub_self, abs_zero])
    · exact g4 (by rw [hc]; simp [jsSub, jsAbs, jsLt, sub_self, abs_zero])
    · exact g5 (by rw [hc]; simp [jsSub, jsAbs, jsLt, sub_self, abs_zero])
    · exact g6 (by rw [hc]; simp [jsSub, jsAbs, jsLt, sub_self, abs_zero])
    · exact g7 (by rw [hc]; simp [jsSub, jsAbs, jsLt, sub_self, abs_zero])

/-- C10 as amended: after every call to `calculateChargingCurrent` whose
computed minimum is an actual (finite) number — which holds on every
non-degenerate pack state — the stored limiting-factor label is one of the
seven named constraint labels: the returned minimum is exactly equal to at
least one of the seven candidate values and hence lies within the 0.1
tolerance of it.  (On a degenerate zero-cell pack the minimum is NaN and
the "Unknown limit" fallback is stored instead.) -/
theorem limitingFactor_named_of_finite_minimum (e : ℚ → ℚ) (p : BatteryPack)
    (maxChargerCurrent q : ℚ)
    (h : (p.calculateChargingCurrentJS e maxChargerCurrent).1 = JSNum.num q) :
    ((p.calculateChargingCurrentJS e maxChargerCurrent).2).limitingFactor ∈
      namedLimitLabels := by
  simp only [BatteryPack.calculateChargingCurrentJS] at h ⊢
  exact some_determineLimitingFactorJS_mem _ _ _ _ _ _ _ q h

theorem packTwo_heatingEnabled : packTwo.batteryHeatingEnabled = false := rfl

theorem packTwo_avgSoc : packTwo.avgSoc = 0 := rfl

theorem packTwo_balancingIntensity : packTwo.balancingIntensity = 0 := rfl

theorem packTwo_maxCarPower : packTwo.maxCarPower = none := rfl

theorem packTwo_maxCRate : packTwo.maxCRate = 2 := rfl

theorem packTwo_totalVoltageJS : packTwo.totalVoltageJS = JSNum.num 8 := by
  unfold BatteryPack.totalVoltageJS
  have h2 : List.range 2 = [0, 1] := rfl
  have h1 : List.range 1 = [0] := rfl
  norm_num [packTwo, h1, h2, cellA, cellB, Cell.make, Cell.voltage, jsAdd, jsDiv]

theorem packTwo_averageTemperatureJS : packTwo.averageTemperatureJS = JSNum.num 25 := by
  unfold BatteryPack.averageTemperatureJS
  norm_num [packTwo, cellA, cellB, Cell.make, jsDiv]

theorem packTwo_maxTemperatureJS : packTwo.maxTemperatureJS = JSNum.num 25 := by
  unfold BatteryPack.maxTemperatureJS
  norm_num [packTwo, cellA, cellB, Cell.make, jsMax, jsLt]

theorem packTwo_energyCapacityKWh : packTwo.energyCapacityKWh = 37/500 := by
  norm_num [BatteryPack.energyCapacityKWh, packTwo, cellA, Cell.make, Cell.energy]

theorem packTwo_limitedCurrentJS :
    (packTwo.calculateChargingCurrentJS expStub 625).1 = JSNum.num (37/2) := by
  simp only [BatteryPack.calculateChargingCurrentJS]
  rw [packTwo_totalVoltageJS, packTwo_averageTemperatureJS]
  norm_num [jsLt, jsMin, jsDiv, cRateLimitJSF, powerLimitJSF, coldTemperatureLimitJSF,
    temperatureLimitJSF, socLimitJSF, balancingLimitJSF, BatteryPack.averageSoc,
    packTwo_heatingEnabled, packTwo_avgSoc, packTwo_balancingIntensity,
    packTwo_maxCarPower, packTwo_maxCRate, packTwo_maxTemperatureJS,
    packTwo_energyCapacityKWh, MAX_VALUE]

/-- Witness for the amended C10: on the two-cell pack the computed minimum
is the finite C-rate value 18.5 A, and the stored label is one of the
seven named labels. -/
theorem limitingFactor_named_of_finite_minimum_witness :
    ((packTwo.calculateChargingCurrentJS expStub 625).2).limitingFactor ∈
      namedLimitLabels :=
  limitingFactor_named_of_finite_minimum expStub packTwo 625 (37/2) packTwo_limitedCurrentJS
